import Mathlib

/-!
Verification development for the sticker-pack synchronization engine of the
`nonebot-plugin-meme-stickers` repository.  The Python modules
`sticker_pack/update.py`, `sticker_pack/manager.py`, `sticker_pack/pack.py`
and `models.py` are shallowly embedded: pure computations become Lean
functions, the stateful update procedure becomes an explicit state machine
over an abstract pack-directory state, and Python exceptions become
`Except`/`Option` results.
-/

namespace MemeStickers

/-- Relative POSIX paths of files, as produced by `Path.as_posix()` on paths
relative to a pack directory. -/
abbrev FileName := String

/-- Hex digests as produced by `hashlib.sha256(data).hexdigest()`. -/
abbrev Checksum := String

/-- Association-list lookup; models Python `dict.get(key)` (JSON objects and
pydantic dumps have unique keys, so first-match lookup coincides with dict
access). -/
def assocLookup (k : String) : List (String × α) → Option α
  | [] => none
  | (k', v) :: rest => if k' = k then some v else assocLookup k rest

/-- ChecksumDict (`dict[str, str]` in `models.py`): a finite map from relative
path to hex digest, modelled as an association list. -/
abbrev ChecksumDict := List (FileName × Checksum)

/-- SkiaTextAlignType from `models.py`:
`Literal["center", "end", "justify", "left", "right", "start"]`
(`end` is a Lean keyword, hence the trailing underscore). -/
inductive SkiaTextAlign where
  | center | end_ | justify | left | right | start
  deriving DecidableEq

/-- SkiaFontStyleType from `models.py`:
`Literal["bold", "bold_italic", "italic", "normal"]`. -/
inductive SkiaFontStyle where
  | bold | bold_italic | italic | normal
  deriving DecidableEq

/-- Python float values.  None of the code paths verified here computes with
these values: they are only stored, merged and copied, so they are modelled
as an abstract token type with decidable equality. -/
structure PyFloat where
  token : Nat
  deriving DecidableEq

/-- RGBAColorTuple from `models.py`: `tuple[int, int, int, int]`. -/
abbrev RGBAColorTuple := Int × Int × Int × Int

/-- StickerParams from `models.py`: the fully resolved render parameters;
every field is required. -/
structure StickerParams where
  width : Int
  height : Int
  base_image : String
  text : String
  text_x : PyFloat
  text_y : PyFloat
  text_align : SkiaTextAlign
  text_rotate_degrees : PyFloat
  text_color : RGBAColorTuple
  stroke_color : RGBAColorTuple
  stroke_width_factor : PyFloat
  font_size : PyFloat
  font_style : SkiaFontStyle
  font_families : List String
  deriving DecidableEq

/-- StickerParamsOptional from `models.py`: every field of `StickerParams`,
each defaulting to `None`.  A field holds `none` exactly when its Python value
is `None` (the enum-typed fields are already range-checked by pydantic when a
`StickerParamsOptional` is parsed, which the enum types encode here). -/
structure StickerParamsOptional where
  width : Option Int := none
  height : Option Int := none
  base_image : Option String := none
  text : Option String := none
  text_x : Option PyFloat := none
  text_y : Option PyFloat := none
  text_align : Option SkiaTextAlign := none
  text_rotate_degrees : Option PyFloat := none
  text_color : Option RGBAColorTuple := none
  stroke_color : Option RGBAColorTuple := none
  stroke_width_factor : Option PyFloat := none
  font_size : Option PyFloat := none
  font_style : Option SkiaFontStyle := none
  font_families : Option (List String) := none
  deriving DecidableEq

/-- The empty keyword dictionary `kw = {}` at the start of
`merge_ensure_sticker_params`, viewed as a record of absent fields. -/
def emptyStickerKw : StickerParamsOptional := {}

/-- One step of `kw.update(type_dump_python(param, exclude_defaults=True))` in
`merge_ensure_sticker_params` (`models.py`): every default on
`StickerParamsOptional` is `None`, so `exclude_defaults=True` dumps exactly
the non-`None` fields of `param`, and `dict.update` lets those override the
accumulator. -/
def updateStickerKw (acc param : StickerParamsOptional) : StickerParamsOptional where
  width := param.width <|> acc.width
  height := param.height <|> acc.height
  base_image := param.base_image <|> acc.base_image
  text := param.text <|> acc.text
  text_x := param.text_x <|> acc.text_x
  text_y := param.text_y <|> acc.text_y
  text_align := param.text_align <|> acc.text_align
  text_rotate_degrees := param.text_rotate_degrees <|> acc.text_rotate_degrees
  text_color := param.text_color <|> acc.text_color
  stroke_color := param.stroke_color <|> acc.stroke_color
  stroke_width_factor := param.stroke_width_factor <|> acc.stroke_width_factor
  font_size := param.font_size <|> acc.font_size
  font_style := param.font_style <|> acc.font_style
  font_families := param.font_families <|> acc.font_families

/-- The final `StickerParams(**kw)` call of `merge_ensure_sticker_params`:
constructing the full model succeeds iff every field is present (pydantic
raises `ValidationError` on a missing field, modelled as `none`). -/
def ensureStickerParams (kw : StickerParamsOptional) : Option StickerParams := do
  let width ← kw.width
  let height ← kw.height
  let base_image ← kw.base_image
  let text ← kw.text
  let text_x ← kw.text_x
  let text_y ← kw.text_y
  let text_align ← kw.text_align
  let text_rotate_degrees ← kw.text_rotate_degrees
  let text_color ← kw.text_color
  let stroke_color ← kw.stroke_color
  let stroke_width_factor ← kw.stroke_width_factor
  let font_size ← kw.font_size
  let font_style ← kw.font_style
  let font_families ← kw.font_families
  pure {
    width, height, base_image, text, text_x, text_y, text_align,
    text_rotate_degrees, text_color, stroke_color, stroke_width_factor,
    font_size, font_style, font_families
  }

/-- merge_ensure_sticker_params from `models.py` (lines 231-235): fold the
dumped non-default fields of each argument (later arguments override earlier
ones) into a keyword dictionary, then require the result to be a complete
`StickerParams`; `none` models the raised `ValidationError`. -/
def merge_ensure_sticker_params (params : List StickerParamsOptional) : Option StickerParams :=
  ensureStickerParams (params.foldl updateStickerKw emptyStickerKw)

/-- StickerInfoOptionalParams from `models.py`: a declared sticker whose
params may be partial.  The `validate_not_falsy` checks on `name`/`category`
are not needed by any claim and are omitted. -/
structure StickerInfoOptionalParams where
  name : String
  category : String
  params : StickerParamsOptional
  deriving DecidableEq

/-- StickerInfo from `models.py`: a resolved sticker with complete params. -/
structure StickerInfo where
  name : String
  category : String
  params : StickerParams
  deriving DecidableEq

/-- StickerExternalFont from `models.py`. -/
structure StickerExternalFont where
  path : String
  deriving DecidableEq

/-- StickerGridParams from `models.py`; only the `background` field
(`Union[RGBAColorTuple, str]`) is read by any verified computation (it feeds
`collect_manifest_files`); the purely numeric layout fields (`padding`,
`gap`, `rows`, `cols`, `sticker_size_fixed`) and the rows/cols exclusivity
validator are omitted because nothing claimed depends on them. -/
structure StickerGridParams where
  background : Sum RGBAColorTuple String
  deriving DecidableEq

/-- StickerGridSetting from `models.py`; `stickers_override_params` is a
`dict[str, StickerGridParams]` modelled as an association list.  The
`disable_category_select` flag and the private resolved-override caches are
omitted (not read by any claimed computation). -/
structure StickerGridSetting where
  default_params : StickerGridParams
  category_override_params : StickerGridParams
  stickers_override_params : List (String × StickerGridParams)
  deriving DecidableEq

/-- The `sample_sticker` field of the manifest:
`Union[StickerInfoOptionalParams, str, int, None]`. -/
inductive SampleSticker where
  | noSample
  | info (s : StickerInfoOptionalParams)
  | byName (s : String)
  | byIndex (i : Int)
  deriving DecidableEq

/-- JSON-like values: the common currency of `type_dump_python` dumps and of
the dictionary merge in `StickerPack.merged_config`. -/
inductive JVal where
  | jnull
  | jbool (b : Bool)
  | jstr (s : String)
  | jlist (xs : List JVal)
  | jobj (fields : List (String × JVal))

/-- A dumped `FileSource` value (`type_dump_python(..., exclude_unset=True)` of
one of the pydantic `FileSourceGitHubBranch` / `FileSourceGitHubTag` /
`FileSourceURL` variants): a JSON object whose keys are exactly the explicitly
set fields of the variant. -/
abbrev FileSourceDecl := List (String × JVal)

/-- A declared `StickerPackConfig` (`models.py` lines 146-151) together with
pydantic set-ness information: each field is `none` when it was not explicitly
set (so `exclude_unset=True` omits it from the dump).  `update_source` is
`Optional[FileSource]`, so when set it can still be explicitly `null`. -/
structure StickerPackConfigDecl where
  update_source : Option (Option FileSourceDecl) := none
  disabled : Option Bool := none
  commands : Option (List String) := none
  extend_commands : Option (List String) := none

/-- StickerPackManifest from `models.py` (lines 238-247).  `version` is a
Python `int`.  The private resolved-sticker caches are represented by the
explicit resolution functions below rather than by mutable attributes. -/
structure StickerPackManifest where
  version : Int
  name : String
  description : String
  default_config : StickerPackConfigDecl
  default_sticker_params : StickerParamsOptional
  sticker_grid : StickerGridSetting
  sample_sticker : SampleSticker
  external_fonts : List StickerExternalFont
  stickers : List StickerInfoOptionalParams

/-- StickerPackManifest.resolve_sticker_params (`models.py` lines 268-269):
overlay the manifest's default sticker params with the given partial params. -/
def resolve_sticker_params (m : StickerPackManifest) (p : StickerParamsOptional) :
    Option StickerParams :=
  merge_ensure_sticker_params [m.default_sticker_params, p]

/-- The `validate_info` helper of `_validate_resolve_stickers` (`models.py`
lines 288-295): resolve one declared sticker into a full `StickerInfo`. -/
def validate_info (m : StickerPackManifest) (s : StickerInfoOptionalParams) :
    Option StickerInfo :=
  (resolve_sticker_params m s.params).map fun params =>
    { name := s.name, category := s.category, params }

/-- Python truthiness of the `sample_sticker` union value, for the
`if not self.sample_sticker:` test: `None`, the empty string and the integer
`0` are falsy. -/
def SampleSticker.falsy : SampleSticker → Bool
  | .noSample => true
  | .info _ => false
  | .byName s => s = ""
  | .byIndex i => i = 0

/-- Python list indexing `lst[i]` with an `int` index: negative indices count
from the end, out-of-range indices raise `IndexError` (modelled as `none`,
matching the `suppress(IndexError)` at the call site). -/
def pyIndex (xs : List α) (i : Int) : Option α :=
  if 0 ≤ i then
    xs.get? i.toNat
  else if -(xs.length : Int) ≤ i then
    xs.get? (xs.length - (-i).toNat)
  else
    none

/-- Python `str.isdigit` restricted to ASCII content, which is what decides
between name lookup and index lookup in `find_sticker`: true iff the string is
nonempty and consists solely of digits. -/
def pyIsDigit (s : String) : Bool :=
  s ≠ "" && s.all Char.isDigit

/-- StickerPackManifest.find_sticker_by_name (`models.py` lines 271-275) over
an already-resolved sticker list. -/
def find_sticker_by_name (resolved : List StickerInfo) (name : String) :
    Option StickerInfo :=
  resolved.find? fun x => x.name = name

/-- StickerPackManifest.find_sticker (`models.py` lines 277-282) over an
already-resolved sticker list: non-digit strings search by name, digit strings
and integers index into the list. -/
def find_sticker (resolved : List StickerInfo) : (Sum String Int) → Option StickerInfo
  | .inl s => if !pyIsDigit s then find_sticker_by_name resolved s
      else pyIndex resolved ((s.toNat?.getD 0 : Nat) : Int)
  | .inr i => pyIndex resolved i

/-- The `for idx, x in enumerate(self.stickers)` loop of
`_validate_resolve_stickers`: resolve the declared stickers in order,
failing the whole validation at the first sticker that does not resolve. -/
def resolveAll (m : StickerPackManifest) :
    List StickerInfoOptionalParams → Option (List StickerInfo)
  | [] => some []
  | s :: rest =>
      match validate_info m s with
      | none => none
      | some info => (resolveAll m rest).map (info :: ·)

/-- StickerPackManifest._validate_resolve_stickers (`models.py` lines
286-316): resolve every declared sticker (any failure fails the whole
validation), then resolve the sample sticker.  The result carries the
resolved sticker list and the resolved sample params; `none` models a raised
`ValidationError`/`ValueError`, which makes the whole manifest invalid. -/
def validate_resolve_stickers (m : StickerPackManifest) :
    Option (List StickerInfo × StickerParams) := do
  let resolved ← resolveAll m m.stickers
  if m.sample_sticker.falsy then
    let first ← resolved.get? 0
    pure (resolved, first.params)
  else
    match m.sample_sticker with
    | .info s => do
        let params ← resolve_sticker_params m s.params
        pure (resolved, params)
    | .byName s => do
        let it ← find_sticker resolved (.inl s)
        pure (resolved, it.params)
    | .byIndex i => do
        let it ← find_sticker resolved (.inr i)
        pure (resolved, it.params)
    | .noSample => none

/-- collect_manifest_files from `sticker_pack/update.py` (lines 25-42): every
resource path referenced by a manifest.  Mirrors the Python truthiness tests:
`base_image` strings are appended only when non-empty (`if ...base_image:` and
the walrus filter), while grid backgrounds only need `isinstance(x, str)`. -/
def collect_manifest_files (manifest : StickerPackManifest) : List FileName :=
  (manifest.external_fonts.map (·.path)) ++
  (match manifest.default_sticker_params.base_image with
    | some b => if b = "" then [] else [b]
    | none => []) ++
  (((manifest.sticker_grid.default_params.background ::
      manifest.sticker_grid.category_override_params.background ::
      manifest.sticker_grid.stickers_override_params.map (·.2.background)).filterMap
    fun x => match x with
      | .inr s => some s
      | .inl _ => none)) ++
  (manifest.stickers.filterMap fun x =>
    match x.params.base_image with
    | some img => if img = "" then none else some img
    | none => none)

/-- files_should_download from `update_sticker_pack` (`sticker_pack/update.py`
lines 87-105).  `localFiles` is `collect_local_files(pack_path)` (every file
under the pack directory except `manifest.json` and `config.json`),
`remoteFiles` is `collect_manifest_files(manifest)`, `checksum` is the result
of `fetch_optional_checksum` (`none` when the fetch failed), and
`localChecksum` abstracts `calc_checksum_from_file` on the pack directory.
The `if checksum:` truthiness test is false for both `None` and the empty
dict. -/
def files_should_download (localFiles remoteFiles : List FileName)
    (checksum : Option ChecksumDict) (localChecksum : FileName → Checksum) :
    Finset FileName :=
  let localSet := localFiles.toFinset
  let remoteSet := remoteFiles.toFinset
  let notInLocal := remoteSet \ localSet
  let bothExist := localSet ∩ remoteSet
  match checksum with
  | some m =>
      if m = [] then notInLocal ∪ bothExist
      else notInLocal ∪
        bothExist.filter fun f => assocLookup f m ≠ some (localChecksum f)
  | none => notInLocal ∪ bothExist

/-- files_should_remove from `update_sticker_pack` (`sticker_pack/update.py`
line 164): `local_files_set - remote_files_set`. -/
def files_should_remove (localFiles remoteFiles : List FileName) : Finset FileName :=
  localFiles.toFinset \ remoteFiles.toFinset

mutual

/-- Modelled from the spec: `cookit.deep_merge` is an external library whose
source is not part of this repository; the spec describes the operation as
"deep-merge(manifest.defaultConfig, localConfig) with local values taking
precedence field-by-field", recursively.  Two objects are merged key by key,
recursing into keys present on both sides; any other source value replaces the
destination value.  Merged keys keep the destination's key order, and keys
only present in the source are appended, matching Python `dict` update
order. -/
def deep_merge : JVal → JVal → JVal
  | JVal.jobj df, JVal.jobj sf =>
      JVal.jobj (mergeFields df sf ++ sf.filter fun kv => (assocLookup kv.1 df).isNone)
  | _, s => s

/-- Merge every destination field with the matching source field (if any). -/
def mergeFields : List (String × JVal) → List (String × JVal) → List (String × JVal)
  | [], _ => []
  | (k, dv) :: rest, sf =>
      (k, match assocLookup k sf with
          | some sv => deep_merge dv sv
          | none => dv) :: mergeFields rest sf

end

/-- Modelled from the spec: the `skip_merge_paths` argument of
`cookit.deep_merge` (the call site passes the single top-level path
`"commands"`): at a skipped key the source value replaces the destination
value without recursive merging. -/
def mergeFieldsSkip (skipKeys : List String) :
    List (String × JVal) → List (String × JVal) → List (String × JVal)
  | [], _ => []
  | (k, dv) :: rest, sf =>
      (k, match assocLookup k sf with
          | some sv => if k ∈ skipKeys then sv else deep_merge dv sv
          | none => dv) :: mergeFieldsSkip skipKeys rest sf

/-- Deep merge of two dumped configs with skipped paths, the exact call shape
of `StickerPack.merged_config`. -/
def deep_merge_skip (skipKeys : List String) : JVal → JVal → JVal
  | JVal.jobj df, JVal.jobj sf =>
      JVal.jobj (mergeFieldsSkip skipKeys df sf ++
        sf.filter fun kv => (assocLookup kv.1 df).isNone)
  | _, s => s

/-- The dump `type_dump_python(config, exclude_unset=True)` of a declared
`StickerPackConfig`: exactly the explicitly set fields appear, in field
declaration order. -/
def dump_config (c : StickerPackConfigDecl) : List (String × JVal) :=
  (match c.update_source with
    | none => []
    | some none => [("update_source", JVal.jnull)]
    | some (some src) => [("update_source", JVal.jobj src)]) ++
  (match c.disabled with
    | none => []
    | some b => [("disabled", JVal.jbool b)]) ++
  (match c.commands with
    | none => []
    | some xs => [("commands", JVal.jlist (xs.map JVal.jstr))]) ++
  (match c.extend_commands with
    | none => []
    | some xs => [("extend_commands", JVal.jlist (xs.map JVal.jstr))])

/-- StickerPack.merged_config (`sticker_pack/pack.py` lines 121-135): the
deep merge of the dumped manifest default config with the dumped local
config, local side second (so it takes precedence), with merging skipped at
the `commands` path. -/
def merged_config (d l : StickerPackConfigDecl) : JVal :=
  deep_merge_skip ["commands"] (JVal.jobj (dump_config d)) (JVal.jobj (dump_config l))

/-- Field access on a merged JSON object. -/
def JVal.lookup : JVal → String → Option JVal
  | .jobj fields, k => assocLookup k fields
  | _, _ => none

/-- The state a loaded `StickerPack` reads when `unavailable` is accessed:
`merged_config.disabled`, the `_ref_outdated` attribute, and the current
on-disk presence of the updating-flag file and of `manifest.json`.  The
accessor is a plain non-cached `@property`, so it is a pure function of this
state. -/
structure PackAccessState where
  mergedDisabled : Bool
  refOutdated : Bool
  flagFileExists : Bool
  manifestFileExists : Bool
  deriving DecidableEq

/-- StickerPack.updating (`sticker_pack/pack.py` lines 60-62): presence of
the updating-flag file. -/
def pack_updating (s : PackAccessState) : Bool :=
  s.flagFileExists

/-- StickerPack.deleted (`sticker_pack/pack.py` lines 64-66): absence of the
manifest file. -/
def pack_deleted (s : PackAccessState) : Bool :=
  !s.manifestFileExists

/-- StickerPack.unavailable (`sticker_pack/pack.py` lines 72-79):
`merged_config.disabled or ref_outdated or updating or deleted`. -/
def pack_unavailable (s : PackAccessState) : Bool :=
  s.mergedDisabled || s.refOutdated || pack_updating s || pack_deleted s

/-- Observable events of one `update_sticker_pack` run, in program order.
`downloadTemp` writes only to the fresh `TemporaryDirectory`; a change to the
pack directory's contents can only be a `moveFile`, `removeFile`,
`removeEmptyDirs` or `savePack` event.  `savePack` is the
`StickerPack(base_path=..., init_manifest=manifest)` persist step and
`unlinkFlag` the final `flag_path.unlink()` of `update_flag_file_ctx`; in the
staged code the former raises before writing (see `updatePipeline`), so the
latter is never reached. -/
inductive UpdateEvent where
  | fetchManifestEv
  | fetchChecksumEv
  | mkdirPack
  | touchFlag
  | downloadTemp (f : FileName)
  | moveFile (f : FileName)
  | removeFile (f : FileName)
  | removeEmptyDirs
  | savePack
  | unlinkFlag
  deriving DecidableEq

/-- Exceptions `update_sticker_pack` can propagate.  `savePackTypeError` is
the unconditional `TypeError` raised by the
`StickerPack(base_path=..., init_manifest=manifest)` call at
`sticker_pack/update.py` line 185: `StickerPack.__init__` in
`sticker_pack/pack.py` accepts no `init_manifest` keyword. -/
inductive UpdateError where
  | alreadyUpdating
  | fetchManifestFailed
  | downloadFailed (f : FileName)
  | moveFailed (f : FileName)
  | removeFailed (f : FileName)
  | savePackTypeError
  deriving DecidableEq

/-- Abstract state of one pack directory: whether the directory itself, the
updating-flag file, `manifest.json` and `config.json` exist, and the set of
asset files (relative paths; the ignored `manifest.json`/`config.json` and the
flag file are tracked by their own fields, mirroring `collect_local_files`'s
ignore set). -/
structure PackFsState where
  dirExists : Bool
  files : Finset FileName
  flagExists : Bool
  manifestOnDisk : Bool
  configOnDisk : Bool
  deriving DecidableEq

/-- Environment of one run: the outcome of each fallible external operation.
`fetchedManifest = none` means `fetch_manifest` raises; `fetchedChecksum`
is the result of `fetch_optional_checksum` (which never raises);
`localChecksum` abstracts `calc_checksum_from_file` over the pack directory;
the remaining fields say which downloads and filesystem operations succeed.
The persist step has no environment knob: in the staged code it raises
`TypeError` unconditionally (see `UpdateError.savePackTypeError`). -/
structure UpdateEnv where
  fetchedManifest : Option StickerPackManifest
  fetchedChecksum : Option ChecksumDict
  localChecksum : FileName → Checksum
  downloadOk : FileName → Bool
  moveOk : FileName → Bool
  removeOk : FileName → Bool

/-- State of a run in progress (or finished): current pack directory state,
the trace of events so far, and the exception in flight (if any). -/
structure UpdateRun where
  fs : PackFsState
  trace : List UpdateEvent
  error : Option UpdateError

/-- The download loop of `do_update` (`sticker_pack/update.py` lines
122-142).  The Python code runs the downloads concurrently with
`asyncio.gather`; since downloads write only to the staging directory, never
to the pack directory, a sequential model is adequate for the pack-state
claims: a failed `gather` propagates the exception before the move loop
starts either way. -/
def runDownloads (env : UpdateEnv) (r : UpdateRun) : List FileName → UpdateRun
  | [] => r
  | f :: rest =>
      if env.downloadOk f then
        runDownloads env { r with trace := r.trace ++ [.downloadTemp f] } rest
      else
        { r with trace := r.trace ++ [.downloadTemp f], error := some (.downloadFailed f) }

/-- The move loop of `do_update` (`sticker_pack/update.py` lines 144-149):
move each staged file into the pack directory; a `shutil.move` failure
propagates, leaving the earlier moves in place. -/
def runMoves (env : UpdateEnv) (r : UpdateRun) : List FileName → UpdateRun
  | [] => r
  | f :: rest =>
      if env.moveOk f then
        runMoves env
          { r with fs := { r.fs with files := insert f r.fs.files },
                   trace := r.trace ++ [.moveFile f] } rest
      else
        { r with trace := r.trace ++ [.moveFile f], error := some (.moveFailed f) }

/-- The removal loop of `update_sticker_pack` (`sticker_pack/update.py` lines
163-171): unlink every obsolete file; an `unlink` failure propagates. -/
def runRemoves (env : UpdateEnv) (r : UpdateRun) : List FileName → UpdateRun
  | [] => r
  | f :: rest =>
      if env.removeOk f then
        runRemoves env
          { r with fs := { r.fs with files := r.fs.files.erase f },
                   trace := r.trace ++ [.removeFile f] } rest
      else
        { r with trace := r.trace ++ [.removeFile f], error := some (.removeFailed f) }

/-- The body of the `with update_flag_file_ctx():` block of
`update_sticker_pack` (`sticker_pack/update.py` lines 118-190), starting from
the state `r2` in which the flag was just touched: download every planned
file into the staging directory and move the staged files in; unlink obsolete
files; remove now-empty directories (directories are not tracked by
`PackFsState`, so this is a pure trace event); then the persist step.  That
step is `StickerPack(base_path=pack_path, init_manifest=manifest)` at line
185, and `StickerPack.__init__` in `sticker_pack/pack.py` (the class this
module imports) has no `init_manifest` parameter — the call raises
`TypeError` unconditionally, so the manifest and config are never written and
the `flag_path.unlink()` at the end of `update_flag_file_ctx` (which has no
`try`/`finally`) is never reached: every raise, including this one, leaves
the flag file and the earlier iterations' effects in place. -/
def updatePipeline (env : UpdateEnv) (plan rplan : List FileName) (r2 : UpdateRun) :
    UpdateRun :=
  let r3 := runDownloads env r2 plan
  if r3.error.isSome then r3 else
  let r4 := runMoves env r3 plan
  if r4.error.isSome then r4 else
  let r5 := runRemoves env r4 rplan
  if r5.error.isSome then r5 else
  let r6 : UpdateRun := { r5 with trace := r5.trace ++ [.removeEmptyDirs] }
  { r6 with trace := r6.trace ++ [.savePack], error := some .savePackTypeError }

/-- Set-up of `update_sticker_pack` after the manifest is in hand: snapshot
the local files, compute the download and removal sets, enter
`update_flag_file_ctx` (mkdir the pack directory if absent, touch the flag),
then run the `updatePipeline` body.  Python iterates the download and removal
`set`s in unspecified order; the model fixes sorted order. -/
def update_sticker_pack_after_fetch (env : UpdateEnv) (manifest : StickerPackManifest)
    (preTrace : List UpdateEvent) (init : PackFsState) : UpdateRun :=
  let localFiles : List FileName :=
    if init.dirExists then init.files.sort (· ≤ ·) else []
  let remoteFiles := collect_manifest_files manifest
  let toDownload :=
    files_should_download localFiles remoteFiles env.fetchedChecksum env.localChecksum
  let toRemove := files_should_remove localFiles remoteFiles
  let trace2 := preTrace ++ [.fetchChecksumEv] ++
    (if init.dirExists then [] else [.mkdirPack]) ++ [.touchFlag]
  let r2 : UpdateRun :=
    { fs := { init with dirExists := true, flagExists := true },
      trace := trace2, error := none }
  updatePipeline env (toDownload.sort (· ≤ ·)) (toRemove.sort (· ≤ ·)) r2

/-- The entry checks of `update_sticker_pack`: reject when the flag file
exists (before anything else); fetch the manifest when none was supplied,
a failed fetch raising before any mutation; then run
`update_sticker_pack_after_fetch`. -/
def update_sticker_pack (env : UpdateEnv) (manifestArg : Option StickerPackManifest)
    (init : PackFsState) : UpdateRun :=
  if init.flagExists then
    { fs := init, trace := [], error := some .alreadyUpdating }
  else
    match manifestArg, env.fetchedManifest with
    | none, none =>
        { fs := init, trace := [.fetchManifestEv], error := some .fetchManifestFailed }
    | none, some m => update_sticker_pack_after_fetch env m [.fetchManifestEv] init
    | some m, _ => update_sticker_pack_after_fetch env m [] init

/-- Pack-directory mutation events: everything that changes (or, for the
persist step, would change) the contents of `packPath` other than creating
the directory and the marker itself. -/
def UpdateEvent.isMutation : UpdateEvent → Bool
  | .moveFile _ => true
  | .removeFile _ => true
  | .removeEmptyDirs => true
  | .savePack => true
  | _ => false

/-- Scanning a trace from the start: no pack mutation occurs before the first
`touchFlag` event. -/
def flagBeforeMutations : List UpdateEvent → Bool
  | [] => true
  | .touchFlag :: _ => true
  | e :: rest => !e.isMutation && flagBeforeMutations rest

/-- One loaded pack as the manager sees it: its slug and its `_ref_outdated`
attribute. -/
structure LoadedPack where
  slug : String
  refOutdated : Bool
  deriving DecidableEq

/-- One immediate subdirectory of the data root as seen by the reload scan:
its name, whether `manifest.json` and the updating-flag file exist in it, and
whether constructing `StickerPack(path)` on it succeeds. -/
structure ScanDir where
  slug : String
  hasManifest : Bool
  hasFlag : Bool
  loadOk : Bool
  deriving DecidableEq

/-- Python exceptions surfaced by the manager embedding. -/
inductive PyError where
  | attributeError
  deriving DecidableEq

/-- OpInfo[str] (`utils/operation.py`, reconstructed from its uses): ordered
lists of succeeded, failed and skipped items, a skipped item carrying its
reason string. -/
structure OpInfoStr where
  succeed : List String := []
  failed : List String := []
  skipped : List (String × String) := []
  deriving DecidableEq

/-- Result of a completed `StickerPackManager.reload`: the freshly loaded
packs, the slugs whose updating-flag file was unlinked, and the operation
info. -/
structure ReloadResult where
  packs : List LoadedPack := []
  clearedFlags : List String := []
  info : OpInfoStr := {}
  deriving DecidableEq

/-- One candidate directory of the scan loop in `StickerPackManager.reload`
(`sticker_pack/manager.py` lines 75-92): a present flag with
`clear_updating_flags` false records the pack as skipped with reason `更新中`
and does not load it; otherwise a present flag is unlinked (with a warning)
and loading proceeds, recording success or failure. -/
def reloadScanStep (clearUpdatingFlags : Bool) (acc : ReloadResult) (d : ScanDir) :
    ReloadResult :=
  if d.hasFlag && !clearUpdatingFlags then
    { acc with info :=
        { acc.info with skipped := acc.info.skipped ++ [(d.slug, "更新中")] } }
  else
    let acc1 :=
      if d.hasFlag then { acc with clearedFlags := acc.clearedFlags ++ [d.slug] }
      else acc
    if d.loadOk then
      { acc1 with
        packs := acc1.packs ++ [{ slug := d.slug, refOutdated := false }],
        info := { acc1.info with succeed := acc1.info.succeed ++ [d.slug] } }
    else
      { acc1 with info := { acc1.info with failed := acc1.info.failed ++ [d.slug] } }

/-- StickerPackManager.reload (`sticker_pack/manager.py` lines 57-96).

The method starts with `for x in self.packs: x.ref_outdated = True`; in
`sticker_pack/pack.py`, `StickerPack.ref_outdated` is a read-only `@property`
(its mutator is the separate method `set_ref_outdated`), so in Python this
assignment raises `AttributeError` on the first loaded pack and nothing past
it runs.  With no loaded packs the loop body never executes: the in-memory
list is cleared, an early return yields an empty result when the data root
does not exist, and otherwise the immediate subdirectories containing
`manifest.json` are scanned in order. -/
def manager_reload (packs : List LoadedPack) (dataDirExists : Bool)
    (dirs : List ScanDir) (clearUpdatingFlags : Bool) : Except PyError ReloadResult :=
  match packs with
  | _ :: _ => .error .attributeError
  | [] =>
      if !dataDirExists then
        .ok {}
      else
        .ok ((dirs.filter (·.hasManifest)).foldl (reloadScanStep clearUpdatingFlags) {})

/-- One pack as the manager's batch `update` reads it: slug, local manifest
version, whether `merged_config.update_source` is set (truthy) and whether
its updating-flag file currently exists. -/
structure MPack where
  slug : String
  localVersion : Int
  hasUpdateSource : Bool
  updating : Bool
  deriving DecidableEq

/-- The candidate filter of `StickerPackManager.update`
(`sticker_pack/manager.py` lines 136-144): packs restricted to the requested
slugs (all packs when no restriction is given) that have an update source and
are not currently mid-update. -/
def update_candidates (packs : List MPack) (sel : Option (List String)) : List MPack :=
  packs.filter fun x =>
    (match sel with
     | none => true
     | some ps => ps.contains x.slug) && x.hasUpdateSource && !x.updating

/-- The skip loop of `StickerPackManager.update` (`sticker_pack/manager.py`
lines 157-171): walk the candidates in order; a candidate whose remote
manifest could not be fetched is skipped with reason `获取贴纸包信息失败`, one
whose fetched version is not greater than the local version is (absent
`force`) skipped with reason `无须更新`; the rest stay in `will_update`.
Returns `(skipped, will_update)`; the update engine is then invoked exactly
on the members of `will_update`. -/
def update_select (cands : List MPack) (force : Bool)
    (manifests : String → Option StickerPackManifest) :
    List (String × String) × List MPack :=
  cands.foldl
    (fun acc p =>
      match manifests p.slug with
      | none => (acc.1 ++ [(p.slug, "获取贴纸包信息失败")], acc.2)
      | some m =>
          if !force && m.version ≤ p.localVersion then
            (acc.1 ++ [(p.slug, "无须更新")], acc.2)
          else
            (acc.1, acc.2 ++ [p]))
    ([], [])

/-- A concrete empty manifest used to evaluate the models on closed inputs:
no referenced resources, color backgrounds, no stickers. -/
def egManifest : StickerPackManifest where
  version := 1
  name := "pack"
  description := ""
  default_config := {}
  default_sticker_params := {}
  sticker_grid :=
    { default_params := { background := Sum.inl (40, 44, 52, 255) }
      category_override_params := { background := Sum.inl (40, 44, 52, 255) }
      stickers_override_params := [] }
  sample_sticker := .noSample
  external_fonts := []
  stickers := []

/-- A fully populated declared sticker-params value, used to evaluate the
resolution model on closed inputs. -/
def egFullParams : StickerParamsOptional where
  width := some 296
  height := some 256
  base_image := some "img.png"
  text := some "text"
  text_x := some ⟨0⟩
  text_y := some ⟨0⟩
  text_align := some .center
  text_rotate_degrees := some ⟨0⟩
  text_color := some (255, 255, 255, 255)
  stroke_color := some (0, 0, 0, 255)
  stroke_width_factor := some ⟨0⟩
  font_size := some ⟨0⟩
  font_style := some .normal
  font_families := some ["font"]

/-- A concrete manifest with complete default sticker params and one sticker
with no overrides, so every sticker resolves. -/
def egManifest2 : StickerPackManifest :=
  { egManifest with
    default_sticker_params := egFullParams
    stickers := [{ name := "s", category := "c", params := {} }] }

/-- A concrete all-successful environment used to evaluate the update engine
on closed inputs. -/
def egEnv : UpdateEnv where
  fetchedManifest := some egManifest
  fetchedChecksum := none
  localChecksum := fun _ => ""
  downloadOk := fun _ => true
  moveOk := fun _ => true
  removeOk := fun _ => true

/-- A concrete initial pack-directory state: nothing on disk yet. -/
def egInit : PackFsState where
  dirExists := false
  files := ∅
  flagExists := false
  manifestOnDisk := false
  configOnDisk := false

/-- A concrete manifest-default config declaration used to evaluate the merge
model on closed inputs. -/
def egConfigD : StickerPackConfigDecl where
  update_source := some (some [("type", JVal.jstr "github"), ("owner", JVal.jstr "a"),
    ("repo", JVal.jstr "r"), ("path", JVal.jstr "p"), ("branch", JVal.jstr "m")])
  disabled := some true
  commands := some ["x"]
  extend_commands := none

/-- A concrete local config declaration used to evaluate the merge model on
closed inputs. -/
def egConfigL : StickerPackConfigDecl where
  update_source := some (some [("type", JVal.jstr "github"), ("owner", JVal.jstr "b"),
    ("repo", JVal.jstr "s"), ("branch", JVal.jstr "dev")])
  disabled := some false
  commands := none
  extend_commands := some ["y"]

/-! ## Helper lemmas -/

theorem assocLookup_nil (k : String) : assocLookup k ([] : List (String × α)) = none := rfl

/-- C1: for every run of the update engine over local file set `A`
(`collect_local_files`: every file under the pack directory except
`manifest.json` and `config.json`) and remote file set `B`
(`collect_manifest_files`: every resource path referenced by the fetched
manifest), the computed download set equals
`(B − A) ∪ {f ∈ A ∩ B : checksum(local f) ≠ remoteChecksum[f]}` when a
checksum map was fetched (a missing map entry counting as a mismatch), equals
`(B − A) ∪ (A ∩ B)` when no checksum map was obtainable, and the computed
removal set equals `A − B`. -/
theorem c1_update_diff_sets (manifest : StickerPackManifest)
    (localFiles : List FileName) (chk : FileName → Checksum) :
    (∀ m : ChecksumDict,
      files_should_download localFiles (collect_manifest_files manifest) (some m) chk =
        ((collect_manifest_files manifest).toFinset \ localFiles.toFinset) ∪
          (localFiles.toFinset ∩ (collect_manifest_files manifest).toFinset).filter
            (fun f => assocLookup f m ≠ some (chk f))) ∧
    files_should_download localFiles (collect_manifest_files manifest) none chk =
      ((collect_manifest_files manifest).toFinset \ localFiles.toFinset) ∪
        (localFiles.toFinset ∩ (collect_manifest_files manifest).toFinset) ∧
    files_should_remove localFiles (collect_manifest_files manifest) =
      localFiles.toFinset \ (collect_manifest_files manifest).toFinset := by
  refine ⟨fun m => ?_, rfl, rfl⟩
  by_cases hm : m = []
  · subst hm
    show _ ∪ _ = _ ∪ _
    rw [Finset.filter_true_of_mem]
    intro f _
    simp [assocLookup]
  · simp only [files_should_download, if_neg hm]

/-- C10: when a checksum map was successfully fetched but contains no entry
for a file present both locally and in the remote file set,
`update_sticker_pack` includes that file in the download set. -/
theorem c10_missing_checksum_entry_downloads (localFiles remoteFiles : List FileName)
    (m : ChecksumDict) (chk : FileName → Checksum) (f : FileName)
    (hA : f ∈ localFiles) (hB : f ∈ remoteFiles)
    (hmiss : assocLookup f m = none) :
    f ∈ files_should_download localFiles remoteFiles (some m) chk := by
  by_cases hm : m = []
  · subst hm
    simp only [files_should_download]
    simp [hA, hB]
  · simp only [files_should_download, if_neg hm]
    simp [hA, hB, hmiss]

/-- Closed witness for `c10_missing_checksum_entry_downloads`: the file `a`
exists locally and remotely, the fetched checksum map only mentions `b`, and
`a` lands in the download set. -/
theorem c10_missing_checksum_entry_downloads_witness :
    "a" ∈ files_should_download ["a"] ["a"] (some [("b", "x")]) (fun _ => "c") :=
  c10_missing_checksum_entry_downloads ["a"] ["a"] [("b", "x")] (fun _ => "c") "a"
    (by simp) (by simp) (by simp [assocLookup])

/-- C6: for every `StickerPack`, the `unavailable` accessor — a pure
function of the state read at access time (merged-config `disabled` flag,
current flag-file presence, the ref-outdated attribute, current manifest-file
presence), not a cached value — returns `true` exactly when the merged
config's `disabled` flag is set, or the crash-marker file currently exists
under the pack's base path, or the pack has been marked ref-outdated, or the
pack's manifest file no longer exists on disk; and `false` otherwise. -/
theorem c6_unavailable_characterization (s : PackAccessState) :
    pack_unavailable s = true ↔
      (s.mergedDisabled = true ∨ s.flagFileExists = true ∨ s.refOutdated = true ∨
        s.manifestFileExists = false) := by
  cases s with
  | mk d r f m =>
      cases d <;> cases r <;> cases f <;> cases m <;>
        simp [pack_unavailable, pack_updating, pack_deleted]

/-- C3: when the crash-marker file already exists at the pack path,
`update_sticker_pack` raises the already-updating error with an empty event
trace — so before fetching anything from the network — and with the pack
directory state unchanged. -/
theorem c3_already_updating_fail_fast (env : UpdateEnv)
    (manifestArg : Option StickerPackManifest) (init : PackFsState)
    (hflag : init.flagExists = true) :
    update_sticker_pack env manifestArg init =
      { fs := init, trace := [], error := some .alreadyUpdating } := by
  simp [update_sticker_pack, hflag]

/-- Closed witness for `c3_already_updating_fail_fast`: a concrete pack
directory whose flag file exists makes the engine fail fast with no events
and no state change. -/
theorem c3_already_updating_fail_fast_witness :
    update_sticker_pack
      { fetchedManifest := none, fetchedChecksum := none,
        localChecksum := fun _ => "", downloadOk := fun _ => true,
        moveOk := fun _ => true, removeOk := fun _ => true }
      none
      { dirExists := true, files := {"img.png"}, flagExists := true,
        manifestOnDisk := true, configOnDisk := true } =
      { fs := { dirExists := true, files := {"img.png"}, flagExists := true,
                manifestOnDisk := true, configOnDisk := true },
        trace := [], error := some .alreadyUpdating } :=
  c3_already_updating_fail_fast _ none _ rfl

theorem runDownloads_fs (env : UpdateEnv) :
    ∀ (l : List FileName) (r : UpdateRun), (runDownloads env r l).fs = r.fs := by
  intro l
  induction l with
  | nil => intro r; rfl
  | cons f rest ih =>
      intro r
      cases h : env.downloadOk f <;> simp only [runDownloads, h, Bool.false_eq_true,
        if_false, if_true]
      exact ih _

theorem runDownloads_trace (env : UpdateEnv) :
    ∀ (l : List FileName) (r : UpdateRun),
      ∃ t, (runDownloads env r l).trace = r.trace ++ t := by
  intro l
  induction l with
  | nil => intro r; exact ⟨[], by simp [runDownloads]⟩
  | cons f rest ih =>
      intro r
      cases h : env.downloadOk f <;> simp only [runDownloads, h, Bool.false_eq_true,
        if_false, if_true]
      · exact ⟨[.downloadTemp f], rfl⟩
      · obtain ⟨t, ht⟩ := ih { r with trace := r.trace ++ [.downloadTemp f] }
        exact ⟨[.downloadTemp f] ++ t, by simp [ht]⟩

theorem runDownloads_trace_mem (env : UpdateEnv) :
    ∀ (l : List FileName) (r : UpdateRun) (e : UpdateEvent),
      e ∈ (runDownloads env r l).trace →
        e ∈ r.trace ∨ ∃ f, e = UpdateEvent.downloadTemp f := by
  intro l
  induction l with
  | nil => intro r e he; exact Or.inl he
  | cons f rest ih =>
      intro r e he
      cases h : env.downloadOk f <;> simp only [runDownloads, h, Bool.false_eq_true,
        if_false, if_true] at he
      · rcases List.mem_append.mp he with h' | h'
        · exact Or.inl h'
        · exact Or.inr ⟨f, List.mem_singleton.mp h'⟩
      · rcases ih _ e he with h' | h'
        · rcases List.mem_append.mp h' with h'' | h''
          · exact Or.inl h''
          · exact Or.inr ⟨f, List.mem_singleton.mp h''⟩
        · exact Or.inr h'

theorem runMoves_flag (env : UpdateEnv) :
    ∀ (l : List FileName) (r : UpdateRun),
      (runMoves env r l).fs.flagExists = r.fs.flagExists := by
  intro l
  induction l with
  | nil => intro r; rfl
  | cons f rest ih =>
      intro r
      cases h : env.moveOk f <;> simp only [runMoves, h, Bool.false_eq_true,
        if_false, if_true]
      exact ih _

theorem runMoves_trace (env : UpdateEnv) :
    ∀ (l : List FileName) (r : UpdateRun),
      ∃ t, (runMoves env r l).trace = r.trace ++ t := by
  intro l
  induction l with
  | nil => intro r; exact ⟨[], by simp [runMoves]⟩
  | cons f rest ih =>
      intro r
      cases h : env.moveOk f <;> simp only [runMoves, h, Bool.false_eq_true,
        if_false, if_true]
      · exact ⟨[.moveFile f], rfl⟩
      · obtain ⟨t, ht⟩ := ih { r with
          fs := { r.fs with files := insert f r.fs.files },
          trace := r.trace ++ [.moveFile f] }
        exact ⟨[.moveFile f] ++ t, by simp [ht]⟩

theorem runMoves_trace_mem (env : UpdateEnv) :
    ∀ (l : List FileName) (r : UpdateRun) (e : UpdateEvent),
      e ∈ (runMoves env r l).trace →
        e ∈ r.trace ∨ ∃ f, e = UpdateEvent.moveFile f := by
  intro l
  induction l with
  | nil => intro r e he; exact Or.inl he
  | cons f rest ih =>
      intro r e he
      cases h : env.moveOk f <;> simp only [runMoves, h, Bool.false_eq_true,
        if_false, if_true] at he
      · rcases List.mem_append.mp he with h' | h'
        · exact Or.inl h'
        · exact Or.inr ⟨f, List.mem_singleton.mp h'⟩
      · rcases ih _ e he with h' | h'
        · rcases List.mem_append.mp h' with h'' | h''
          · exact Or.inl h''
          · exact Or.inr ⟨f, List.mem_singleton.mp h''⟩
        · exact Or.inr h'

theorem runRemoves_flag (env : UpdateEnv) :
    ∀ (l : List FileName) (r : UpdateRun),
      (runRemoves env r l).fs.flagExists = r.fs.flagExists := by
  intro l
  induction l with
  | nil => intro r; rfl
  | cons f rest ih =>
      intro r
      cases h : env.removeOk f <;> simp only [runRemoves, h, Bool.false_eq_true,
        if_false, if_true]
      exact ih _

theorem runRemoves_trace (env : UpdateEnv) :
    ∀ (l : List FileName) (r : UpdateRun),
      ∃ t, (runRemoves env r l).trace = r.trace ++ t := by
  intro l
  induction l with
  | nil => intro r; exact ⟨[], by simp [runRemoves]⟩
  | cons f rest ih =>
      intro r
      cases h : env.removeOk f <;> simp only [runRemoves, h, Bool.false_eq_true,
        if_false, if_true]
      · exact ⟨[.removeFile f], rfl⟩
      · obtain ⟨t, ht⟩ := ih { r with
          fs := { r.fs with files := r.fs.files.erase f },
          trace := r.trace ++ [.removeFile f] }
        exact ⟨[.removeFile f] ++ t, by simp [ht]⟩

theorem runRemoves_trace_mem (env : UpdateEnv) :
    ∀ (l : List FileName) (r : UpdateRun) (e : UpdateEvent),
      e ∈ (runRemoves env r l).trace →
        e ∈ r.trace ∨ ∃ f, e = UpdateEvent.removeFile f := by
  intro l
  induction l with
  | nil => intro r e he; exact Or.inl he
  | cons f rest ih =>
      intro r e he
      cases h : env.removeOk f <;> simp only [runRemoves, h, Bool.false_eq_true,
        if_false, if_true] at he
      · rcases List.mem_append.mp he with h' | h'
        · exact Or.inl h'
        · exact Or.inr ⟨f, List.mem_singleton.mp h'⟩
      · rcases ih _ e he with h' | h'
        · rcases List.mem_append.mp h' with h'' | h''
          · exact Or.inl h''
          · exact Or.inr ⟨f, List.mem_singleton.mp h''⟩
        · exact Or.inr h'

theorem flagBeforeMutations_append (xs ys : List UpdateEvent)
    (h : ∀ e ∈ xs, e.isMutation = false)
    (hy : flagBeforeMutations ys = true) :
    flagBeforeMutations (xs ++ ys) = true := by
  induction xs with
  | nil => simpa using hy
  | cons e rest ih =>
      have he := h e (List.mem_cons_self e rest)
      have hrest : ∀ e' ∈ rest, e'.isMutation = false :=
        fun e' h' => h e' (List.mem_cons_of_mem e h')
      cases e <;> simp_all [flagBeforeMutations]

theorem runMoves_persist (env : UpdateEnv) :
    ∀ (l : List FileName) (r : UpdateRun),
      (runMoves env r l).fs.manifestOnDisk = r.fs.manifestOnDisk ∧
      (runMoves env r l).fs.configOnDisk = r.fs.configOnDisk := by
  intro l
  induction l with
  | nil => intro r; exact ⟨rfl, rfl⟩
  | cons f rest ih =>
      intro r
      cases h : env.moveOk f <;> simp only [runMoves, h, Bool.false_eq_true,
        if_false, if_true]
      · simp
      · exact ih _

theorem runRemoves_persist (env : UpdateEnv) :
    ∀ (l : List FileName) (r : UpdateRun),
      (runRemoves env r l).fs.manifestOnDisk = r.fs.manifestOnDisk ∧
      (runRemoves env r l).fs.configOnDisk = r.fs.configOnDisk := by
  intro l
  induction l with
  | nil => intro r; exact ⟨rfl, rfl⟩
  | cons f rest ih =>
      intro r
      cases h : env.removeOk f <;> simp only [runRemoves, h, Bool.false_eq_true,
        if_false, if_true]
      · simp
      · exact ih _

theorem updatePipeline_spec (env : UpdateEnv) (plan rplan : List FileName)
    (r2 : UpdateRun) (h2flag : r2.fs.flagExists = true)
    (h2key : ∀ t, flagBeforeMutations (r2.trace ++ t) = true)
    (h2no : UpdateEvent.unlinkFlag ∉ r2.trace) :
    flagBeforeMutations (updatePipeline env plan rplan r2).trace = true ∧
    UpdateEvent.unlinkFlag ∉ (updatePipeline env plan rplan r2).trace ∧
    (updatePipeline env plan rplan r2).fs.flagExists = true ∧
    (updatePipeline env plan rplan r2).fs.manifestOnDisk = r2.fs.manifestOnDisk ∧
    (updatePipeline env plan rplan r2).fs.configOnDisk = r2.fs.configOnDisk ∧
    (updatePipeline env plan rplan r2).error.isSome = true := by
  obtain ⟨t3, ht3⟩ := runDownloads_trace env plan r2
  have hfs3 := runDownloads_fs env plan r2
  have hno3 : UpdateEvent.unlinkFlag ∉ (runDownloads env r2 plan).trace := by
    intro h
    rcases runDownloads_trace_mem env plan r2 _ h with h' | ⟨f, hf⟩
    · exact h2no h'
    · simp at hf
  obtain ⟨t4, ht4⟩ := runMoves_trace env plan (runDownloads env r2 plan)
  have hflag4 : (runMoves env (runDownloads env r2 plan) plan).fs.flagExists = true := by
    rw [runMoves_flag, hfs3]; exact h2flag
  have hno4 :
      UpdateEvent.unlinkFlag ∉ (runMoves env (runDownloads env r2 plan) plan).trace := by
    intro h
    rcases runMoves_trace_mem env plan _ _ h with h' | ⟨f, hf⟩
    · exact hno3 h'
    · simp at hf
  obtain ⟨t5, ht5⟩ :=
    runRemoves_trace env rplan (runMoves env (runDownloads env r2 plan) plan)
  have hflag5 :
      (runRemoves env (runMoves env (runDownloads env r2 plan) plan) rplan).fs.flagExists
        = true := by
    rw [runRemoves_flag]; exact hflag4
  have hno5 : UpdateEvent.unlinkFlag ∉
      (runRemoves env (runMoves env (runDownloads env r2 plan) plan) rplan).trace := by
    intro h
    rcases runRemoves_trace_mem env rplan _ _ h with h' | ⟨f, hf⟩
    · exact hno4 h'
    · simp at hf
  have htr4 : (runMoves env (runDownloads env r2 plan) plan).trace
      = r2.trace ++ (t3 ++ t4) := by
    rw [ht4, ht3, List.append_assoc]
  have htr5 :
      (runRemoves env (runMoves env (runDownloads env r2 plan) plan) rplan).trace
        = r2.trace ++ (t3 ++ t4 ++ t5) := by
    rw [ht5, htr4, List.append_assoc]
  have hp4 := runMoves_persist env plan (runDownloads env r2 plan)
  have hp5 :=
    runRemoves_persist env rplan (runMoves env (runDownloads env r2 plan) plan)
  have hpm5 :
      (runRemoves env (runMoves env (runDownloads env r2 plan) plan)
        rplan).fs.manifestOnDisk = r2.fs.manifestOnDisk := by
    rw [hp5.1, hp4.1, hfs3]
  have hpc5 :
      (runRemoves env (runMoves env (runDownloads env r2 plan) plan)
        rplan).fs.configOnDisk = r2.fs.configOnDisk := by
    rw [hp5.2, hp4.2, hfs3]
  by_cases hc3 : (runDownloads env r2 plan).error.isSome = true
  · have hres : updatePipeline env plan rplan r2 = runDownloads env r2 plan := by
      simp only [updatePipeline]
      rw [if_pos hc3]
    rw [hres]
    refine ⟨?_, ?_, ?_, ?_, ?_, ?_⟩
    · rw [ht3]; exact h2key t3
    · exact hno3
    · rw [hfs3]; exact h2flag
    · rw [hfs3]
    · rw [hfs3]
    · exact hc3
  · by_cases hc4 : (runMoves env (runDownloads env r2 plan) plan).error.isSome = true
    · have hres : updatePipeline env plan rplan r2
          = runMoves env (runDownloads env r2 plan) plan := by
        simp only [updatePipeline]
        rw [if_neg hc3, if_pos hc4]
      rw [hres]
      refine ⟨?_, ?_, ?_, ?_, ?_, ?_⟩
      · rw [htr4]; exact h2key _
      · exact hno4
      · exact hflag4
      · rw [hp4.1, hfs3]
      · rw [hp4.2, hfs3]
      · exact hc4
    · by_cases hc5 :
          (runRemoves env (runMoves env (runDownloads env r2 plan) plan) rplan).error.isSome
            = true
      · have hres : updatePipeline env plan rplan r2
            = runRemoves env (runMoves env (runDownloads env r2 plan) plan) rplan := by
          simp only [updatePipeline]
          rw [if_neg hc3, if_neg hc4, if_pos hc5]
        rw [hres]
        refine ⟨?_, ?_, ?_, ?_, ?_, ?_⟩
        · rw [htr5]; exact h2key _
        · exact hno5
        · exact hflag5
        · exact hpm5
        · exact hpc5
        · exact hc5
      · have hres : updatePipeline env plan rplan r2 =
            { fs :=
                (runRemoves env (runMoves env (runDownloads env r2 plan) plan) rplan).fs,
              trace :=
                ((runRemoves env (runMoves env (runDownloads env r2 plan) plan)
                    rplan).trace
                  ++ [UpdateEvent.removeEmptyDirs]) ++ [UpdateEvent.savePack],
              error := some UpdateError.savePackTypeError } := by
          simp only [updatePipeline]
          rw [if_neg hc3, if_neg hc4, if_neg hc5]
        rw [hres]
        refine ⟨?_, ?_, ?_, ?_, ?_, ?_⟩
        · show flagBeforeMutations _ = true
          rw [htr5]
          rw [List.append_assoc, List.append_assoc]
          exact h2key _
        · intro h
          rcases List.mem_append.mp h with h' | h'
          · rcases List.mem_append.mp h' with h'' | h''
            · exact hno5 h''
            · simp at h''
          · simp at h'
        · exact hflag5
        · exact hpm5
        · exact hpc5
        · rfl

theorem after_fetch_spec (env : UpdateEnv) (manifest : StickerPackManifest)
    (preTrace : List UpdateEvent) (init : PackFsState)
    (hpre : ∀ e ∈ preTrace, e = UpdateEvent.fetchManifestEv) :
    flagBeforeMutations (update_sticker_pack_after_fetch env manifest preTrace init).trace
      = true ∧
    UpdateEvent.unlinkFlag ∉
      (update_sticker_pack_after_fetch env manifest preTrace init).trace ∧
    (update_sticker_pack_after_fetch env manifest preTrace init).fs.flagExists = true ∧
    (update_sticker_pack_after_fetch env manifest preTrace init).fs.manifestOnDisk
      = init.manifestOnDisk ∧
    (update_sticker_pack_after_fetch env manifest preTrace init).fs.configOnDisk
      = init.configOnDisk ∧
    (update_sticker_pack_after_fetch env manifest preTrace init).error.isSome
      = true := by
  have hkey : ∀ t, flagBeforeMutations ((preTrace ++ [UpdateEvent.fetchChecksumEv] ++
      (if init.dirExists then [] else [UpdateEvent.mkdirPack]) ++ [UpdateEvent.touchFlag])
      ++ t) = true := by
    intro t
    have hassoc : (preTrace ++ [UpdateEvent.fetchChecksumEv] ++
        (if init.dirExists then [] else [UpdateEvent.mkdirPack]) ++ [UpdateEvent.touchFlag])
        ++ t
        = (preTrace ++ [UpdateEvent.fetchChecksumEv] ++
          (if init.dirExists then [] else [UpdateEvent.mkdirPack]))
          ++ (UpdateEvent.touchFlag :: t) := by
      rw [List.append_assoc]
      rfl
    rw [hassoc]
    apply flagBeforeMutations_append
    · intro e he
      rcases List.mem_append.mp he with h1 | h2
      · rcases List.mem_append.mp h1 with h3 | h4
        · rw [hpre e h3]; rfl
        · rw [List.mem_singleton.mp h4]; rfl
      · split at h2
        · cases h2
        · rw [List.mem_singleton.mp h2]; rfl
    · rfl
  have hno2 : UpdateEvent.unlinkFlag ∉ (preTrace ++ [UpdateEvent.fetchChecksumEv] ++
      (if init.dirExists then [] else [UpdateEvent.mkdirPack])
      ++ [UpdateEvent.touchFlag]) := by
    intro h
    rcases List.mem_append.mp h with h1 | h2
    · rcases List.mem_append.mp h1 with h3 | h4
      · rcases List.mem_append.mp h3 with h5 | h6
        · have := hpre _ h5; simp at this
        · simp at h6
      · split at h4
        · cases h4
        · simp at h4
    · simp at h2
  exact updatePipeline_spec env
    ((files_should_download (if init.dirExists then init.files.sort (· ≤ ·) else [])
        (collect_manifest_files manifest) env.fetchedChecksum env.localChecksum).sort
      (· ≤ ·))
    ((files_should_remove (if init.dirExists then init.files.sort (· ≤ ·) else [])
        (collect_manifest_files manifest)).sort (· ≤ ·))
    { fs := { init with dirExists := true, flagExists := true },
      trace := preTrace ++ [UpdateEvent.fetchChecksumEv] ++
        (if init.dirExists then [] else [UpdateEvent.mkdirPack])
        ++ [UpdateEvent.touchFlag],
      error := none }
    rfl hkey hno2

/-- C2: the claim says the crash-marker file is created (creating the pack
directory first if absent) before any mutation of the pack directory and
removed only after downloading, moving staged files into place, deleting
obsolete files and persisting the manifest and config all complete without
raising, any exception in between leaving the marker in place.  The ordering
half holds, but the cited persist step can never complete:
`StickerPack(base_path=pack_path, init_manifest=manifest)` at
`sticker_pack/update.py` line 185 raises `TypeError` unconditionally, because
`StickerPack.__init__` in `sticker_pack/pack.py` has no `init_manifest`
parameter (and that class never writes `manifest.json`).  Accordingly, in
every run of the embedding no mutation precedes marker creation, the
marker-unlink event never occurs, the manifest and config are never
persisted, and the run raises; at the concrete failing input — a fresh pack
directory with every fetch and download succeeding — the engine still ends
with the `TypeError` and leaves the marker on disk. -/
theorem c2_update_persist_step_always_raises :
    (∀ (env : UpdateEnv) (manifestArg : Option StickerPackManifest)
        (init : PackFsState),
      flagBeforeMutations (update_sticker_pack env manifestArg init).trace = true ∧
      UpdateEvent.unlinkFlag ∉ (update_sticker_pack env manifestArg init).trace ∧
      (update_sticker_pack env manifestArg init).fs.manifestOnDisk
        = init.manifestOnDisk ∧
      (update_sticker_pack env manifestArg init).fs.configOnDisk
        = init.configOnDisk ∧
      (update_sticker_pack env manifestArg init).error.isSome = true) ∧
    (update_sticker_pack egEnv (some egManifest) egInit).error
      = some UpdateError.savePackTypeError ∧
    (update_sticker_pack egEnv (some egManifest) egInit).fs.flagExists = true ∧
    (update_sticker_pack egEnv (some egManifest) egInit).fs.manifestOnDisk
      = false := by
  constructor
  · intro env manifestArg init
    by_cases hflag : init.flagExists = true
    · have hres : update_sticker_pack env manifestArg init =
          { fs := init, trace := [], error := some UpdateError.alreadyUpdating } := by
        simp [update_sticker_pack, hflag]
      rw [hres]
      exact ⟨rfl, by simp, rfl, rfl, rfl⟩
    · cases manifestArg with
      | some m =>
          have hres : update_sticker_pack env (some m) init =
              update_sticker_pack_after_fetch env m [] init := by
            simp [update_sticker_pack, hflag]
          rw [hres]
          obtain ⟨hA, hB, _, hD, hE, hF⟩ :=
            after_fetch_spec env m [] init (by intro e he; cases he)
          exact ⟨hA, hB, hD, hE, hF⟩
      | none =>
          cases hfm : env.fetchedManifest with
          | none =>
              have hres : update_sticker_pack env none init =
                  { fs := init, trace := [UpdateEvent.fetchManifestEv],
                    error := some UpdateError.fetchManifestFailed } := by
                simp [update_sticker_pack, hflag, hfm]
              rw [hres]
              exact ⟨rfl, by simp, rfl, rfl, rfl⟩
          | some m =>
              have hres : update_sticker_pack env none init =
                  update_sticker_pack_after_fetch env m [UpdateEvent.fetchManifestEv]
                    init := by
                simp [update_sticker_pack, hflag, hfm]
              rw [hres]
              obtain ⟨hA, hB, _, hD, hE, hF⟩ := after_fetch_spec env m
                [UpdateEvent.fetchManifestEv] init (by intro e he; simpa using he)
              exact ⟨hA, hB, hD, hE, hF⟩
  · refine ⟨?_, ?_, ?_⟩ <;>
      simp [update_sticker_pack, update_sticker_pack_after_fetch, updatePipeline,
        egInit, egEnv, egManifest, collect_manifest_files, files_should_download,
        files_should_remove, runDownloads, runMoves, runRemoves]

theorem reload_scan_foldl (flag : Bool) (ds : List ScanDir) (acc : ReloadResult) :
    ds.foldl (reloadScanStep flag) acc =
      { packs := acc.packs ++ (ds.filterMap fun d =>
          if d.hasFlag && !flag then none
          else if d.loadOk then some { slug := d.slug, refOutdated := false }
          else none),
        clearedFlags := acc.clearedFlags ++ (ds.filterMap fun d =>
          if d.hasFlag && !flag then none
          else if d.hasFlag then some d.slug else none),
        info :=
          { succeed := acc.info.succeed ++ (ds.filterMap fun d =>
              if d.hasFlag && !flag then none
              else if d.loadOk then some d.slug else none),
            failed := acc.info.failed ++ (ds.filterMap fun d =>
              if d.hasFlag && !flag then none
              else if d.loadOk then none else some d.slug),
            skipped := acc.info.skipped ++ (ds.filterMap fun d =>
              if d.hasFlag && !flag then some (d.slug, "更新中") else none) } } := by
  induction ds generalizing acc with
  | nil => simp
  | cons d rest ih =>
      cases hskip : d.hasFlag && !flag with
      | true =>
          simp_all [List.foldl_cons, reloadScanStep, List.filterMap_cons,
            List.append_assoc]
      | false =>
          cases hf : d.hasFlag <;> cases hl : d.loadOk <;>
            simp_all [List.foldl_cons, reloadScanStep, List.filterMap_cons,
              List.append_assoc]

/-- C4: for every scanned pack directory containing both a manifest file and
the crash-marker file, `StickerPackManager.reload` with
`clear_updating_flags=false` records that slug as skipped with the source's
updating reason (`更新中`) and does not load the pack into the in-memory
list, while `clear_updating_flags=true` unlinks the marker file and proceeds
to load the pack (succeeding whenever the `StickerPack` constructor does). -/
theorem c4_reload_skips_or_clears_updating (packs : List LoadedPack)
    (dataDirExists : Bool) (dirs : List ScanDir) (clearFlags : Bool)
    (res : ReloadResult)
    (hok : manager_reload packs dataDirExists dirs clearFlags = .ok res)
    (hdir : dataDirExists = true)
    (hnodup : (dirs.map (·.slug)).Nodup)
    (d : ScanDir) (hd : d ∈ dirs) (hman : d.hasManifest = true)
    (hflag : d.hasFlag = true) :
    (clearFlags = false →
      (d.slug, "更新中") ∈ res.info.skipped ∧ d.slug ∉ res.packs.map (·.slug)) ∧
    (clearFlags = true →
      d.slug ∈ res.clearedFlags ∧
      (d.loadOk = true → d.slug ∈ res.packs.map (·.slug))) := by
  subst hdir
  cases packs with
  | cons p ps => simp [manager_reload] at hok
  | nil =>
      simp only [manager_reload, Bool.not_true, Bool.false_eq_true, if_false] at hok
      rw [reload_scan_foldl] at hok
      injection hok with hres
      subst hres
      have hdf : d ∈ dirs.filter (·.hasManifest) := List.mem_filter.mpr ⟨hd, hman⟩
      constructor
      · intro hcf
        subst hcf
        constructor
        · simp only [OpInfoStr.skipped, List.nil_append]
          exact List.mem_filterMap.mpr ⟨d, hdf, by simp [hflag]⟩
        · intro hmem
          simp only [List.nil_append] at hmem
          rcases List.mem_map.mp hmem with ⟨p, hp, hps⟩
          rcases List.mem_filterMap.mp hp with ⟨d', hd', hfd'⟩
          have hit : ¬(d'.hasFlag && !false) = true := by
            intro hcontra
            rw [if_pos hcontra] at hfd'
            cases hfd'
          rw [if_neg hit] at hfd'
          have hslug : d'.slug = d.slug := by
            by_cases hlo : d'.loadOk = true
            · rw [if_pos hlo] at hfd'
              have := (Option.some.injEq _ _).mp hfd'
              rw [← this] at hps
              exact hps
            · rw [if_neg hlo] at hfd'
              cases hfd'
          have hd'mem : d' ∈ dirs := (List.mem_filter.mp hd').1
          have : d' = d :=
            List.inj_on_of_nodup_map hnodup hd'mem hd hslug
          subst this
          simp [hflag] at hit
      · intro hcf
        subst hcf
        refine ⟨?_, ?_⟩
        · simp only [ReloadResult.clearedFlags, List.nil_append]
          exact List.mem_filterMap.mpr ⟨d, hdf, by simp [hflag]⟩
        · intro hlo
          simp only [List.nil_append]
          refine List.mem_map.mpr ⟨{ slug := d.slug, refOutdated := false }, ?_, rfl⟩
          exact List.mem_filterMap.mpr ⟨d, hdf, by simp [hflag, hlo]⟩

/-- Closed witness for `c4_reload_skips_or_clears_updating`: scanning a
single directory with manifest and marker under `clear_updating_flags=false`
records it as skipped with reason `更新中` and loads nothing. -/
theorem c4_reload_skips_or_clears_updating_witness :
    ("p", "更新中") ∈
      (ReloadResult.mk [] []
        { succeed := [], failed := [], skipped := [("p", "更新中")] }).info.skipped ∧
    "p" ∉ (ReloadResult.mk [] []
        { succeed := [], failed := [], skipped := [("p", "更新中")] }).packs.map
      (·.slug) :=
  (c4_reload_skips_or_clears_updating []
    true [{ slug := "p", hasManifest := true, hasFlag := true, loadOk := true }] false
    (ReloadResult.mk [] [] { succeed := [], failed := [], skipped := [("p", "更新中")] })
    rfl rfl (by simp)
    { slug := "p", hasManifest := true, hasFlag := true, loadOk := true }
    (by simp) rfl rfl).1 rfl

/-- C5: the spec says every `reload` call first marks every currently-loaded
pack ref-outdated and then rescans; in the code the marking loop executes
`x.ref_outdated = True` against the read-only `ref_outdated` property of
`StickerPack` (whose mutator is `set_ref_outdated`), so with at least one
loaded pack the call raises `AttributeError` instead.  This theorem evaluates
the embedding at the failing input: one loaded pack, existing data root. -/
theorem c5_reload_ref_outdated_raises :
    manager_reload [{ slug := "foo", refOutdated := false }] true [] false =
      .error .attributeError := rfl

theorem update_select_foldl (force : Bool)
    (manifests : String → Option StickerPackManifest) (cands : List MPack)
    (acc : List (String × String) × List MPack) :
    cands.foldl
      (fun acc p =>
        match manifests p.slug with
        | none => (acc.1 ++ [(p.slug, "获取贴纸包信息失败")], acc.2)
        | some m =>
            if !force && m.version ≤ p.localVersion then
              (acc.1 ++ [(p.slug, "无须更新")], acc.2)
            else
              (acc.1, acc.2 ++ [p]))
      acc =
      (acc.1 ++ cands.filterMap (fun p =>
          match manifests p.slug with
          | none => some (p.slug, "获取贴纸包信息失败")
          | some m =>
              if !force && m.version ≤ p.localVersion then some (p.slug, "无须更新")
              else none),
        acc.2 ++ cands.filter (fun p =>
          match manifests p.slug with
          | none => false
          | some m => !(!force && decide (m.version ≤ p.localVersion)))) := by
  induction cands generalizing acc with
  | nil => simp
  | cons p rest ih =>
      rcases hm : manifests p.slug with _ | m
      · simp_all [List.foldl_cons, List.filterMap_cons, List.filter_cons,
          List.append_assoc]
      · cases hf : force
        · by_cases hle : m.version ≤ p.localVersion
          · simp_all [List.foldl_cons, List.filterMap_cons, List.filter_cons,
              List.append_assoc]
          · simp_all [List.foldl_cons, List.filterMap_cons, List.filter_cons,
              List.append_assoc]
            rw [if_neg (not_le.mpr hle)]
            simp [List.append_assoc]
        · simp_all [List.foldl_cons, List.filterMap_cons, List.filter_cons,
            List.append_assoc]

theorem update_select_eq (cands : List MPack) (force : Bool)
    (manifests : String → Option StickerPackManifest) :
    update_select cands force manifests =
      (cands.filterMap (fun p =>
          match manifests p.slug with
          | none => some (p.slug, "获取贴纸包信息失败")
          | some m =>
              if !force && m.version ≤ p.localVersion then some (p.slug, "无须更新")
              else none),
        cands.filter (fun p =>
          match manifests p.slug with
          | none => false
          | some m => !(!force && decide (m.version ≤ p.localVersion)))) := by
  have h := update_select_foldl force manifests cands ([], [])
  simpa [update_select] using h

/-- C8: in the manager's batch update with `force=false`, every candidate
pack whose remote manifest was successfully fetched with version less than or
equal to the local manifest version is recorded as skipped with reason
`无须更新` and stays out of `will_update`, the list on which the update
engine is invoked — so no download occurs for it.  In particular a second
update run after a successful one with no remote change (local version equal
to remote version) reports the pack as skipped and performs zero downloads. -/
theorem c8_update_skips_up_to_date (packs : List MPack)
    (sel : Option (List String))
    (manifests : String → Option StickerPackManifest) (p : MPack)
    (m : StickerPackManifest)
    (hp : p ∈ update_candidates packs sel)
    (hm : manifests p.slug = some m)
    (hv : m.version ≤ p.localVersion) :
    (p.slug, "无须更新") ∈
      (update_select (update_candidates packs sel) false manifests).1 ∧
    p ∉ (update_select (update_candidates packs sel) false manifests).2 := by
  rw [update_select_eq]
  constructor
  · exact List.mem_filterMap.mpr ⟨p, hp, by simp [hm, hv]⟩
  · intro hmem
    have hkeep := (List.mem_filter.mp hmem).2
    rw [hm] at hkeep
    simp [hv] at hkeep

/-- Closed witness for `c8_update_skips_up_to_date`: one candidate with an
update source, not mid-update, local version equal to the fetched remote
version (the state after a successful update with no remote change) is
skipped with reason `无须更新` and is not in `will_update`. -/
theorem c8_update_skips_up_to_date_witness :
    ("a", "无须更新") ∈
      (update_select
        (update_candidates
          [{ slug := "a", localVersion := 1, hasUpdateSource := true,
             updating := false }] none)
        false (fun _ => some egManifest)).1 ∧
    ({ slug := "a", localVersion := 1, hasUpdateSource := true,
       updating := false } : MPack) ∉
      (update_select
        (update_candidates
          [{ slug := "a", localVersion := 1, hasUpdateSource := true,
             updating := false }] none)
        false (fun _ => some egManifest)).2 :=
  c8_update_skips_up_to_date
    [{ slug := "a", localVersion := 1, hasUpdateSource := true, updating := false }]
    none (fun _ => some egManifest)
    { slug := "a", localVersion := 1, hasUpdateSource := true, updating := false }
    egManifest (by simp [update_candidates]) rfl (by simp [egManifest])

theorem resolveAll_isSome_iff (m : StickerPackManifest) :
    ∀ l : List StickerInfoOptionalParams,
      (resolveAll m l).isSome = true ↔
        ∀ s ∈ l, (validate_info m s).isSome = true := by
  intro l
  induction l with
  | nil => simp [resolveAll]
  | cons s rest ih =>
      cases hv : validate_info m s with
      | none => simp [resolveAll, hv]
      | some info =>
          simp [resolveAll, hv, Option.isSome_map, ih]

/-- C9: validation of a pack manifest succeeds only if, for every declared
sticker, overlaying the manifest's default sticker params with that sticker's
partial params yields a complete `StickerParams` (every field present; the
enum-valued fields are range-checked by their types); and if any single
sticker cannot be resolved this way, the whole manifest validation fails. -/
theorem c9_manifest_validation_resolves_stickers (m : StickerPackManifest) :
    ((validate_resolve_stickers m).isSome = true →
      ∀ s ∈ m.stickers, (resolve_sticker_params m s.params).isSome = true) ∧
    (∀ s ∈ m.stickers, resolve_sticker_params m s.params = none →
      validate_resolve_stickers m = none) := by
  constructor
  · intro hv s hs
    cases hr : resolveAll m m.stickers with
    | none => simp [validate_resolve_stickers, hr] at hv
    | some rl =>
        have hall := (resolveAll_isSome_iff m m.stickers).mp (by simp [hr])
        have := hall s hs
        simpa [validate_info, Option.isSome_map] using this
  · intro s hs hnone
    have hr : resolveAll m m.stickers = none := by
      cases hr : resolveAll m m.stickers with
      | none => rfl
      | some rl =>
          have hall := (resolveAll_isSome_iff m m.stickers).mp (by simp [hr])
          have := hall s hs
          rw [validate_info, hnone] at this
          simp at this
    simp [validate_resolve_stickers, hr]

/-- Closed witness for `c9_manifest_validation_resolves_stickers`: a manifest
whose defaults are complete validates, and its single sticker's overlay
resolves. -/
theorem c9_manifest_validation_resolves_stickers_witness :
    (resolve_sticker_params egManifest2 ({} : StickerParamsOptional)).isSome = true :=
  (c9_manifest_validation_resolves_stickers egManifest2).1 (by rfl)
    { name := "s", category := "c", params := {} } (by simp [egManifest2])

theorem assocLookup_append (k : String) (xs ys : List (String × α)) :
    assocLookup k (xs ++ ys) =
      match assocLookup k xs with
      | some v => some v
      | none => assocLookup k ys := by
  induction xs with
  | nil => simp [assocLookup]
  | cons kv rest ih =>
      obtain ⟨k', v⟩ := kv
      by_cases h : k' = k
      · simp [assocLookup, h]
      · simp [assocLookup, h, ih]

theorem assocLookup_mergeFieldsSkip (skip : List String)
    (df sf : List (String × JVal)) (k : String) :
    assocLookup k (mergeFieldsSkip skip df sf) =
      (assocLookup k df).map fun dv =>
        match assocLookup k sf with
        | some sv => if k ∈ skip then sv else deep_merge dv sv
        | none => dv := by
  induction df with
  | nil => simp [mergeFieldsSkip, assocLookup]
  | cons kv rest ih =>
      obtain ⟨k', dv⟩ := kv
      by_cases h : k' = k
      · subst h
        simp [mergeFieldsSkip, assocLookup]
      · simp [mergeFieldsSkip, assocLookup, h, ih]

theorem assocLookup_filter_isNone (df sf : List (String × JVal)) (k : String)
    (h : assocLookup k df = none) :
    assocLookup k (sf.filter fun kv => (assocLookup kv.1 df).isNone) =
      assocLookup k sf := by
  induction sf with
  | nil => simp
  | cons kv rest ih =>
      obtain ⟨k', v⟩ := kv
      by_cases hk : k' = k
      · subst hk
        simp [List.filter_cons, h, assocLookup]
      · by_cases hp : (assocLookup k' df).isNone = true
        · simp [List.filter_cons, hp, assocLookup, hk, ih]
        · simp [List.filter_cons, hp, assocLookup, hk, ih]

theorem lookup_deep_merge_skip (skip : List String) (df sf : List (String × JVal))
    (k : String) :
    (deep_merge_skip skip (JVal.jobj df) (JVal.jobj sf)).lookup k =
      match assocLookup k df, assocLookup k sf with
      | some dv, some sv => some (if k ∈ skip then sv else deep_merge dv sv)
      | some dv, none => some dv
      | none, some sv => some sv
      | none, none => none := by
  show assocLookup k
      (mergeFieldsSkip skip df sf ++
        sf.filter fun kv => (assocLookup kv.1 df).isNone) = _
  rw [assocLookup_append, assocLookup_mergeFieldsSkip]
  cases hd : assocLookup k df with
  | some dv => cases hs : assocLookup k sf <;> simp
  | none =>
      cases hs : assocLookup k sf <;>
        simp [assocLookup_filter_isNone df sf k hd, hs]

theorem mergeFields_eq_skip_nil (df sf : List (String × JVal)) :
    mergeFields df sf = mergeFieldsSkip [] df sf := by
  induction df with
  | nil => rfl
  | cons kv rest ih =>
      obtain ⟨k', dv⟩ := kv
      cases hs : assocLookup k' sf <;> simp [mergeFields, mergeFieldsSkip, ih, hs]

theorem lookup_deep_merge_obj (df sf : List (String × JVal)) (k : String) :
    (deep_merge (JVal.jobj df) (JVal.jobj sf)).lookup k =
      match assocLookup k df, assocLookup k sf with
      | some dv, some sv => some (deep_merge dv sv)
      | some dv, none => some dv
      | none, some sv => some sv
      | none, none => none := by
  have hskipnil : deep_merge (JVal.jobj df) (JVal.jobj sf) =
      deep_merge_skip [] (JVal.jobj df) (JVal.jobj sf) := by
    show JVal.jobj (mergeFields df sf ++ _) = JVal.jobj (mergeFieldsSkip [] df sf ++ _)
    rw [mergeFields_eq_skip_nil]
  rw [hskipnil, lookup_deep_merge_skip]
  cases hd : assocLookup k df <;> cases hs : assocLookup k sf <;> simp

theorem deep_merge_src_not_obj (dv sv : JVal) (h : ∀ fs, sv ≠ JVal.jobj fs) :
    deep_merge dv sv = sv := by
  cases dv <;> cases sv <;> first
    | rfl
    | exact absurd rfl (h _)

theorem dump_config_lookup_update_source (c : StickerPackConfigDecl) :
    assocLookup "update_source" (dump_config c) =
      match c.update_source with
      | none => none
      | some none => some JVal.jnull
      | some (some src) => some (JVal.jobj src) := by
  obtain ⟨us, di, co, ec⟩ := c
  rcases us with _ | (_ | src) <;> rcases di with _ | b <;> rcases co with _ | xs <;>
    rcases ec with _ | ys <;> rfl

theorem dump_config_lookup_disabled (c : StickerPackConfigDecl) :
    assocLookup "disabled" (dump_config c) = c.disabled.map JVal.jbool := by
  obtain ⟨us, di, co, ec⟩ := c
  rcases us with _ | (_ | src) <;> rcases di with _ | b <;> rcases co with _ | xs <;>
    rcases ec with _ | ys <;> rfl

theorem dump_config_lookup_commands (c : StickerPackConfigDecl) :
    assocLookup "commands" (dump_config c) =
      c.commands.map fun xs => JVal.jlist (xs.map JVal.jstr) := by
  obtain ⟨us, di, co, ec⟩ := c
  rcases us with _ | (_ | src) <;> rcases di with _ | b <;> rcases co with _ | xs <;>
    rcases ec with _ | ys <;> rfl

theorem dump_config_lookup_extend_commands (c : StickerPackConfigDecl) :
    assocLookup "extend_commands" (dump_config c) =
      c.extend_commands.map fun xs => JVal.jlist (xs.map JVal.jstr) := by
  obtain ⟨us, di, co, ec⟩ := c
  rcases us with _ | (_ | src) <;> rcases di with _ | b <;> rcases co with _ | xs <;>
    rcases ec with _ | ys <;> rfl

/-- C7: for any manifest default config `D` and local config `L`, the pack's
merged config (computed at the level of the dumped objects fed to the
validating `StickerPackConfig(**merged)` constructor) takes `L`'s value on
every field explicitly set in `L` and `D`'s dumped value on every field unset
in `L`; for the one nested field (`update_source`), when both sides set it to
an object the merge recurses field-by-field, so each subfield set in `L`'s
source (with a non-object value, as all `FileSource` fields are) wins while
each subfield unset in `L`'s source falls back to `D`'s source. -/
theorem c7_merged_config_precedence (d l : StickerPackConfigDecl) :
    (∀ b, l.disabled = some b →
      (merged_config d l).lookup "disabled" = some (JVal.jbool b)) ∧
    (l.disabled = none →
      (merged_config d l).lookup "disabled" =
        assocLookup "disabled" (dump_config d)) ∧
    (∀ xs, l.commands = some xs →
      (merged_config d l).lookup "commands" =
        some (JVal.jlist (xs.map JVal.jstr))) ∧
    (l.commands = none →
      (merged_config d l).lookup "commands" =
        assocLookup "commands" (dump_config d)) ∧
    (∀ xs, l.extend_commands = some xs →
      (merged_config d l).lookup "extend_commands" =
        some (JVal.jlist (xs.map JVal.jstr))) ∧
    (l.extend_commands = none →
      (merged_config d l).lookup "extend_commands" =
        assocLookup "extend_commands" (dump_config d)) ∧
    (l.update_source = some none →
      (merged_config d l).lookup "update_source" = some JVal.jnull) ∧
    (l.update_source = none →
      (merged_config d l).lookup "update_source" =
        assocLookup "update_source" (dump_config d)) ∧
    (∀ srcL, l.update_source = some (some srcL) →
      ∃ M, (merged_config d l).lookup "update_source" = some (JVal.jobj M) ∧
        (∀ k sv, assocLookup k srcL = some sv → (∀ fs, sv ≠ JVal.jobj fs) →
          assocLookup k M = some sv) ∧
        (∀ k, assocLookup k srcL = none →
          assocLookup k M =
            (match d.update_source with
             | some (some srcD) => assocLookup k srcD
             | _ => none))) := by
  have hm : ∀ k, (merged_config d l).lookup k =
      match assocLookup k (dump_config d), assocLookup k (dump_config l) with
      | some dv, some sv =>
          some (if k ∈ ["commands"] then sv else deep_merge dv sv)
      | some dv, none => some dv
      | none, some sv => some sv
      | none, none => none := fun k => by
    unfold merged_config
    exact lookup_deep_merge_skip ["commands"] (dump_config d) (dump_config l) k
  refine ⟨?_, ?_, ?_, ?_, ?_, ?_, ?_, ?_, ?_⟩
  · intro b hb
    rw [hm]
    simp only [dump_config_lookup_disabled]
    rw [hb]
    cases hdd : d.disabled <;> simp [deep_merge]
  · intro hb
    rw [hm]
    simp only [dump_config_lookup_disabled]
    rw [hb]
    cases hdd : d.disabled <;> simp
  · intro xs hxs
    rw [hm]
    simp only [dump_config_lookup_commands]
    rw [hxs]
    cases hdc : d.commands <;> simp
  · intro hxs
    rw [hm]
    simp only [dump_config_lookup_commands]
    rw [hxs]
    cases hdc : d.commands <;> simp
  · intro xs hxs
    rw [hm]
    simp only [dump_config_lookup_extend_commands]
    rw [hxs]
    cases hde : d.extend_commands <;> simp [deep_merge]
  · intro hxs
    rw [hm]
    simp only [dump_config_lookup_extend_commands]
    rw [hxs]
    cases hde : d.extend_commands <;> simp
  · intro hus
    rw [hm]
    simp only [dump_config_lookup_update_source]
    rw [hus]
    rcases hdu : d.update_source with _ | (_ | srcD) <;> simp [deep_merge]
  · intro hus
    rw [hm]
    simp only [dump_config_lookup_update_source]
    rw [hus]
    rcases hdu : d.update_source with _ | (_ | srcD) <;> simp
  · intro srcL hus
    rw [hm]
    simp only [dump_config_lookup_update_source]
    rw [hus]
    rcases hdu : d.update_source with _ | (_ | srcD)
    · refine ⟨srcL, by simp, ?_, ?_⟩
      · intro k sv hsv _
        exact hsv
      · intro k hk
        simp [hk]
    · refine ⟨srcL, by simp [deep_merge], ?_, ?_⟩
      · intro k sv hsv _
        exact hsv
      · intro k hk
        simp [hk]
    · refine ⟨mergeFields srcD srcL ++
        srcL.filter fun kv => (assocLookup kv.1 srcD).isNone, by simp [deep_merge], ?_, ?_⟩
      · intro k sv hsv hscalar
        have hrfl : assocLookup k (mergeFields srcD srcL ++
            srcL.filter fun kv => (assocLookup kv.1 srcD).isNone) =
            (deep_merge (JVal.jobj srcD) (JVal.jobj srcL)).lookup k := rfl
        rw [hrfl, lookup_deep_merge_obj, hsv]
        cases hdk : assocLookup k srcD <;>
          simp [deep_merge_src_not_obj _ _ hscalar]
      · intro k hk
        have hrfl : assocLookup k (mergeFields srcD srcL ++
            srcL.filter fun kv => (assocLookup kv.1 srcD).isNone) =
            (deep_merge (JVal.jobj srcD) (JVal.jobj srcL)).lookup k := rfl
        rw [hrfl, lookup_deep_merge_obj, hk]
        cases hdk : assocLookup k srcD <;> simp [hdk]

/-- Closed witness for `c7_merged_config_precedence`: with concrete default
and local configs, the locally set `disabled` wins and the locally unset
`commands` falls back to the default's dumped entry. -/
theorem c7_merged_config_precedence_witness :
    (merged_config egConfigD egConfigL).lookup "disabled" =
      some (JVal.jbool false) ∧
    (merged_config egConfigD egConfigL).lookup "commands" =
      assocLookup "commands" (dump_config egConfigD) := by
  have h := c7_merged_config_precedence egConfigD egConfigL
  exact ⟨h.1 false rfl, h.2.2.2.1 rfl⟩

end MemeStickers
